import Mathlib

/-!
Verification development for the ATC24 flight-plan notification bot
(`src/main.py`). The definitions below are a shallow embedding of the
event-ingestion, deduplication, matching and dispatch pipeline:

* `JVal` models the JSON values arriving on the push WebSocket.
* `processWebsocketMessage` embeds `process_websocket_message`.
* `unwrapFlightPlans` embeds the payload-unwrapping prelude of
  `process_flight_plan`.
* `recordKey` / `dedupKey` embed the bounded dedup deque
  (`deque(maxlen=500)`) and the composite duplicate key.
* `choosePfx` / `matchTenants` embed the prefix-matching loop.
* `renderFields` embeds the field-building section of
  `send_flight_plan_notification`.
* `sendFlightPlanNotification` embeds the per-tenant delivery fan-out
  with its tenant-local error handling.
-/

namespace FlightBot

/-- JSON values, as delivered by the WebSocket feed. Objects are kept as
association lists of key-value pairs (Python dict lookup is modelled by
first-key lookup). -/
inductive JVal where
  | null
  | bool (b : Bool)
  | num (n : Int)
  | str (s : String)
  | arr (xs : List JVal)
  | obj (fields : List (String × JVal))

/-- Python `key in d` for a dict modelled as an association list. -/
def hasKey (fields : List (String × JVal)) (k : String) : Bool :=
  fields.any (fun p => p.1 == k)

/-- Python `d[key]` / `d.get(key)` for a dict modelled as an association
list: value of the first pair with the given key. -/
def lookup (fields : List (String × JVal)) (k : String) : Option JVal :=
  (fields.find? (fun p => p.1 == k)).map Prod.snd

/-- The event-type allow-list check in `process_websocket_message`:
`event_type not in ['FLIGHT_PLAN', 'EVENT_FLIGHT_PLAN']` ignores the
message. A non-string discriminator never equals either string. -/
def isAllowedType (t : JVal) : Bool :=
  match t with
  | .str s => s == "FLIGHT_PLAN" || s == "EVENT_FLIGHT_PLAN"
  | _ => false

/-- `process_websocket_message`: requires a dict with both `t` and `d`
keys and an allow-listed discriminator; returns the payload handed to
`process_flight_plan`, or `none` when the message is ignored. -/
def processWebsocketMessage (m : JVal) : Option JVal :=
  match m with
  | .obj fields =>
      if hasKey fields "t" && hasKey fields "d" then
        match lookup fields "t" with
        | some t =>
            if isAllowedType t then lookup fields "d" else none
        | none => none
      else none
  | _ => none

/-- The wrapper keys probed, in order, by `process_flight_plan` when a
dict payload lacks a `callsign` key. -/
def wrapperKeys : List String := ["flightPlan", "data", "flight_plan"]

/-- A payload element is kept by the per-flight-plan loop only when it is
a dict containing a `callsign` key. -/
def isCallsignObj (v : JVal) : Bool :=
  match v with
  | .obj fields => hasKey fields "callsign"
  | _ => false

/-- The wrapper-unwrapping in `process_flight_plan`: Python's
`for key in [...]: if key in d: ...; break` stops at the first key
present in the dict, whether or not its value is usable. -/
def firstWrapperKey (fields : List (String × JVal)) : Option String :=
  wrapperKeys.find? (fun k => hasKey fields k)

/-- The candidate list `flight_plans` built by the prelude of
`process_flight_plan`: a list payload is used directly; a dict with
`callsign` is a single plan; otherwise the first present wrapper key is
examined (and only that one), yielding its value when it is a list or a
callsign-bearing dict, else nothing. -/
def unwrapFlightPlans (d : JVal) : List JVal :=
  match d with
  | .arr xs => xs
  | .obj fields =>
      if hasKey fields "callsign" then [.obj fields]
      else
        match firstWrapperKey fields with
        | none => []
        | some k =>
            match lookup fields k with
            | some (.arr xs) => xs
            | some (.obj inner) =>
                if hasKey inner "callsign" then [.obj inner] else []
            | _ => []
  | _ => []

/-- The flight-plan records that survive the per-element guard
`isinstance(flight_plan, dict) and 'callsign' in flight_plan` of the
processing loop in `process_flight_plan`. -/
def extractFlightPlans (d : JVal) : List JVal :=
  (unwrapFlightPlans d).filter isCallsignObj

/-- The events a whole WebSocket message gives rise to: nothing unless
the envelope is accepted, then the extracted flight plans. -/
def eventsOfMessage (m : JVal) : List JVal :=
  match processWebsocketMessage m with
  | none => []
  | some d => extractFlightPlans d

/-- A flight-plan record as consumed by the dedup key, the matcher and
the renderer. `none` models a missing key (Python `dict.get` returning
the default). -/
structure FlightPlan where
  callsign : String
  robloxName : Option String := none
  aircraft : Option String := none
  departing : Option String := none
  arriving : Option String := none
  flightlevel : Option String := none
  flightrules : Option String := none
  route : Option String := none
  deriving DecidableEq

/-- Per-guild configuration row (`server_configs[guild_id]`). -/
structure ServerConfig where
  channelId : Nat
  prefixes : List String
  showCallsign : Bool := true
  showPilot : Bool := true
  showAircraft : Bool := true
  showDeparture : Bool := true
  showArrival : Bool := true
  showFlightlevel : Bool := true
  showFlightrules : Bool := true
  showRoute : Bool := true
  deriving DecidableEq

/-- `deque(maxlen=500)`. -/
def dedupCapacity : Nat := 500

/-- The duplicate key built in `process_flight_plan`: the callsign,
pilot name, departure airport and arrival airport joined by
underscores, with empty-string defaults for the optional parts. -/
def dedupKey (fp : FlightPlan) : String :=
  fp.callsign ++ "_" ++ fp.robloxName.getD "" ++ "_" ++
    fp.departing.getD "" ++ "_" ++ fp.arriving.getD ""

/-- `deque.append` on a deque with `maxlen=500`: append to the back and
drop from the front whatever exceeds the capacity. -/
def recordKey (cache : List String) (k : String) : List String :=
  let c := cache ++ [k]
  if dedupCapacity < c.length then c.drop (c.length - dedupCapacity) else c

/-- Python truthiness of an optional string field (`None`, a missing
key, and the empty string are all falsy). -/
def truthy (v : Option String) : Bool :=
  match v with
  | none => false
  | some s => !s.isEmpty

/-- Python `str.upper` on one character (ASCII letters a-z are mapped
to A-Z, everything else is unchanged). -/
def pyUpperChar (c : Char) : Char :=
  if 'a' ≤ c && c ≤ 'z' then Char.ofNat (c.toNat - 32) else c

/-- Python `str.upper`, per character. -/
def pyUpperL (cs : List Char) : List Char :=
  cs.map pyUpperChar

/-- Python `str.startswith`: does the second list start with the
first? -/
def isPrefixL : List Char → List Char → Bool
  | [], _ => true
  | _ :: _, [] => false
  | a :: as, b :: bs => a == b && isPrefixL as bs

/-- Case-insensitive prefix test from the matching loop: the Python
source compares the uppercased callsign against the uppercased
configured value with startswith. -/
def matchesPrefixCI (callsign pfx : String) : Bool :=
  isPrefixL (pyUpperL pfx.data) (pyUpperL callsign.data)

/-- The inner loop of the matcher: walk the tenant's prefixes in
configured order and take the first that matches (the loop breaks at
the first hit). -/
def choosePfx (callsign : String) : List String → Option String
  | [] => none
  | p :: rest =>
      if matchesPrefixCI callsign p then some p
      else choosePfx callsign rest

/-- The matching loop of `process_flight_plan`: each tenant contributes
at most one `(guildId, config, matchedPrefix)` entry. -/
def matchTenants (configs : List (Nat × ServerConfig)) (callsign : String) :
    List (Nat × ServerConfig × String) :=
  configs.filterMap (fun gc =>
    (choosePfx callsign gc.2.prefixes).map (fun p => (gc.1, gc.2, p)))

/-- The field-building section of `send_flight_plan_notification`,
one configuration-gated block per embed field, in source order. The
Pilot field has no presence check: `flight_plan.get('robloxName',
'Unknown')` always yields a value. The Route field additionally skips
the literal sentinel value `N/A`. -/
def renderFields (config : ServerConfig) (fp : FlightPlan) :
    List (String × String) :=
  (if config.showCallsign && !fp.callsign.isEmpty then
    [("Callsign", "**" ++ fp.callsign ++ "**")] else []) ++
  (if config.showPilot then
    [("Pilot", fp.robloxName.getD "Unknown")] else []) ++
  (if config.showAircraft && truthy fp.aircraft then
    [("Aircraft", fp.aircraft.getD "")] else []) ++
  (if config.showDeparture && truthy fp.departing then
    [("Departure", fp.departing.getD "")] else []) ++
  (if config.showArrival && truthy fp.arriving then
    [("Arrival", fp.arriving.getD "")] else []) ++
  (if config.showFlightlevel && truthy fp.flightlevel then
    [("Flight Level", "FL" ++ fp.flightlevel.getD "")] else []) ++
  (if config.showFlightrules && truthy fp.flightrules then
    [("Flight Rules", fp.flightrules.getD "")] else []) ++
  (if config.showRoute && truthy fp.route && !(fp.route.getD "" == "N/A") then
    [("Route", fp.route.getD "")] else [])

/-- The names of the fields a rendered notification carries. -/
def renderedNames (config : ServerConfig) (fp : FlightPlan) : List String :=
  (renderFields config fp).map Prod.fst

/-- The environment a delivery attempt runs against: whether the
configured channel resolves to a usable text channel, whether the bot
has send and embed permissions there, and whether `channel.send`
raises. -/
structure DeliveryEnv where
  channelOk : Nat → Bool
  hasPerms : Nat → Bool
  sendRaises : Nat → Bool

/-- Outcome of one tenant's delivery attempt in
`send_flight_plan_notification`: either the embed was sent, or the
attempt was logged and skipped for one of the three tenant-local
failure reasons (`continue` for a bad channel or missing permissions,
the `except` clause for a raised send error). -/
inductive DeliveryOutcome where
  | sent
  | channelNotFound
  | missingPermissions
  | sendError
  deriving DecidableEq

/-- One iteration of the fan-out loop body, with the two `continue`
guards and the exception catch folded into an outcome. -/
def attemptDelivery (env : DeliveryEnv) (channelId : Nat) : DeliveryOutcome :=
  if !env.channelOk channelId then .channelNotFound
  else if !env.hasPerms channelId then .missingPermissions
  else if env.sendRaises channelId then .sendError
  else .sent

/-- `send_flight_plan_notification`: attempt delivery once for every
matched tenant, in order; every failure is caught inside the loop body,
so the loop always runs to completion. -/
def sendFlightPlanNotification (env : DeliveryEnv)
    (matching : List (Nat × ServerConfig × String)) :
    List (Nat × DeliveryOutcome) :=
  matching.map (fun e => (e.1, attemptDelivery env e.2.1.channelId))

/-- The per-flight-plan body of `process_flight_plan`, acting on the
dedup cache: a plan whose key is already cached is skipped before any
matching; otherwise the key is recorded first and the matched tenants
(the dispatcher's argument, empty when no tenant matches) are
returned. -/
def processOne (configs : List (Nat × ServerConfig)) (cache : List String)
    (fp : FlightPlan) : List String × List (Nat × ServerConfig × String) :=
  if dedupKey fp ∈ cache then (cache, [])
  else (recordKey cache (dedupKey fp), matchTenants configs fp.callsign)

/-- Processing a batch of flight plans in order, collecting one
dispatcher invocation (a non-empty matched-tenant list) per plan that
passes deduplication and matches at least one tenant. -/
def processList (configs : List (Nat × ServerConfig)) (cache : List String) :
    List FlightPlan → List String × List (FlightPlan × List (Nat × ServerConfig × String))
  | [] => (cache, [])
  | fp :: rest =>
      let r := processOne configs cache fp
      let r2 := processList configs r.1 rest
      (r2.1, (if r.2.isEmpty then [] else [(fp, r.2)]) ++ r2.2)

/-- A sequence of dedup-cache record operations (repeated
`deque.append`). -/
def recordAll (cache : List String) (ks : List String) : List String :=
  ks.foldl recordKey cache

/-- Test fixture: the flight plan from the push end-to-end scenario. -/
def swaFlightPlan : FlightPlan :=
  { callsign := "SWA10", robloxName := some "X",
    departing := some "KLAX", arriving := some "KSEA" }

/-- Test fixture: a tenant subscribed to the SWA prefix. -/
def swaConfig : ServerConfig :=
  { channelId := 42, prefixes := ["SWA"] }

/-- Test fixture: a tenant with the DAL and D prefixes in that
configured order. -/
def dalConfig : ServerConfig :=
  { channelId := 5, prefixes := ["DAL", "D"] }

/-- Test fixture: an event carrying only a callsign. -/
def fpBare : FlightPlan :=
  { callsign := "TEST123" }

/-- Test fixture: an event whose route and aircraft both carry the
sentinel string N/A. -/
def fpSentinel : FlightPlan :=
  { callsign := "TEST123", aircraft := some "N/A", route := some "N/A" }

/-- Test fixture: a tenant with every visibility flag left at its
default (true). -/
def cfgAllOn : ServerConfig :=
  { channelId := 7, prefixes := ["TEST"] }

/-- Test fixture: an envelope whose discriminator is not in the
allow-list. -/
def wrongTypeFields : List (String × JVal) :=
  [("t", .str "CONTROLLERS"), ("d", .obj [("callsign", .str "SWA1")])]

/-- Test fixture: a wrapper dict whose first present wrapper key holds
an unusable value while a later wrapper key holds a valid payload. -/
def wrappedBadFields : List (String × JVal) :=
  [("flightPlan", .str "bad"), ("data", .obj [("callsign", .str "SWA1")])]

/-- Test fixture: 500 pairwise distinct cache keys, all distinct from
the empty string. -/
def evictKeys : List String :=
  (List.range dedupCapacity).map (fun n => String.mk (List.replicate (n + 1) 'a'))

/-- Modelled from the spec: the Snapshot Differ of the poll path is not
present in `src/` (the repository only implements the push transport).
Per section 4.3, given the previous full snapshot and the current one it
returns current minus previous, and a feed with no prior snapshot yields
the empty set. -/
def snapshotDiff (prev : Option (List String)) (current : List String) :
    List String :=
  match prev with
  | none => []
  | some p => current.filter (fun c => !p.contains c)

/-! Dedup cache lemmas. -/

theorem recordKey_eq_drop (cache : List String) (k : String) :
    recordKey cache k = (cache ++ [k]).drop (cache.length + 1 - dedupCapacity) := by
  have hl : (cache ++ [k]).length = cache.length + 1 := by
    simp
  simp only [recordKey, hl]
  by_cases h : dedupCapacity < cache.length + 1
  · rw [if_pos h]
  · rw [if_neg h, Nat.sub_eq_zero_of_le (by omega), List.drop_zero]

theorem mem_recordKey_self (cache : List String) (k : String) :
    k ∈ recordKey cache k := by
  rw [recordKey_eq_drop]
  have h1 : cache.length + 1 - dedupCapacity ≤ cache.length := by
    have : 0 < dedupCapacity := by decide
    omega
  rw [List.drop_append_of_le_length h1]
  simp

theorem recordAll_cons (cache : List String) (k : String) (ks : List String) :
    recordAll cache (k :: ks) = recordAll (recordKey cache k) ks := rfl

theorem recordAll_eq_drop (ks : List String) :
    ∀ cache : List String, cache.length ≤ dedupCapacity →
      recordAll cache ks =
        (cache ++ ks).drop (cache.length + ks.length - dedupCapacity) := by
  induction ks with
  | nil =>
      intro cache h
      simp [recordAll, Nat.sub_eq_zero_of_le h]
  | cons a ks ih =>
      intro cache h
      have hkl : (recordKey cache a).length ≤ dedupCapacity := by
        rw [recordKey_eq_drop]
        simp only [List.length_drop, List.length_append, List.length_cons,
          List.length_nil]
        omega
      rw [recordAll_cons, ih _ hkl, recordKey_eq_drop]
      have hd1 : cache.length + 1 - dedupCapacity ≤ (cache ++ [a]).length := by
        rw [List.length_append]
        simp only [List.length_cons, List.length_nil]
        omega
      rw [← List.drop_append_of_le_length hd1, List.drop_drop]
      have hassoc : cache ++ [a] ++ ks = cache ++ a :: ks := by
        rw [List.append_assoc]
        rfl
      rw [hassoc]
      simp only [List.length_drop, List.length_append, List.length_cons,
        List.length_nil]
      exact congrFun (congrArg List.drop (by omega)) _

theorem length_recordAll_le (ks : List String) :
    (recordAll [] ks).length ≤ dedupCapacity := by
  rw [recordAll_eq_drop ks [] (by simp)]
  simp only [List.nil_append, List.length_drop, List.length_nil]
  omega

/-- C3: the deduplication cache, driven only by record operations from
an empty start, never holds more than 500 keys; and after recording 501
pairwise distinct keys the first one recorded is evicted, hence no
longer seen. -/
theorem dedup_cache_capacity_and_evicts :
    (∀ ks : List String, (recordAll [] ks).length ≤ dedupCapacity) ∧
    (∀ (k : String) (ks : List String), (k :: ks).Nodup →
      ks.length = dedupCapacity → k ∉ recordAll [] (k :: ks)) := by
  refine ⟨length_recordAll_le, ?_⟩
  intro k ks hnd hlen
  rw [recordAll_eq_drop (k :: ks) [] (by simp)]
  simp only [List.nil_append, List.length_cons, List.length_nil, Nat.zero_add, hlen]
  have hone : dedupCapacity + 1 - dedupCapacity = 1 := by omega
  rw [hone]
  simp only [List.drop_one, List.tail_cons]
  exact (List.nodup_cons.mp hnd).1

/-- Witness for C3 at a concrete run: one record stays within capacity,
and with the 501 concrete distinct keys the first key is evicted. -/
theorem dedup_cache_capacity_and_evicts_witness :
    (recordAll [] ["x"]).length ≤ dedupCapacity ∧
    "" ∉ recordAll [] ("" :: evictKeys) := by
  constructor
  · exact dedup_cache_capacity_and_evicts.1 ["x"]
  · apply dedup_cache_capacity_and_evicts.2
    · rw [List.nodup_cons]
      constructor
      · intro hmem
        simp only [evictKeys, List.mem_map, List.mem_range] at hmem
        obtain ⟨n, -, hn⟩ := hmem
        have := congrArg (fun s => s.data.length) hn
        simp at this
      · apply List.Nodup.map
        · intro a b hab
          have := congrArg (fun s => s.data.length) hab
          simpa using this
        · exact List.nodup_range _
    · simp [evictKeys]

/-- C2: two push-path events with equal dedup keys invoke the
dispatcher at most once between them, and any dispatch that does happen
is for the first of the two; the second is always skipped. -/
theorem push_dedup_at_most_one_dispatch
    (configs : List (Nat × ServerConfig)) (cache : List String)
    (e1 e2 : FlightPlan) (h : dedupKey e1 = dedupKey e2) :
    (processList configs cache [e1, e2]).2.length ≤ 1 ∧
    ∀ pr ∈ (processList configs cache [e1, e2]).2, pr.1 = e1 := by
  by_cases h1 : dedupKey e1 ∈ cache
  · have h2 : dedupKey e2 ∈ cache := h ▸ h1
    simp [processList, processOne, h1, h2]
  · have hrec : dedupKey e2 ∈ recordKey cache (dedupKey e1) := by
      rw [← h]
      exact mem_recordKey_self cache (dedupKey e1)
    by_cases hm : (matchTenants configs e1.callsign).isEmpty
    · simp [processList, processOne, h1, hrec, hm]
    · simp [processList, processOne, h1, hrec, hm]

/-- Witness for C2: the duplicated SWA10 push event dispatches at most
once, and the one dispatch that happens is for the first copy. -/
theorem push_dedup_at_most_one_dispatch_witness :
    dedupKey swaFlightPlan = dedupKey swaFlightPlan ∧
    (processList [(1, swaConfig)] [] [swaFlightPlan, swaFlightPlan]).2.length ≤ 1 ∧
    (swaFlightPlan, [(1, swaConfig, "SWA")]).1 = swaFlightPlan := by
  refine ⟨rfl, (push_dedup_at_most_one_dispatch _ _ _ _ rfl).1, ?_⟩
  exact (push_dedup_at_most_one_dispatch [(1, swaConfig)] [] swaFlightPlan
    swaFlightPlan rfl).2 _ (by decide)

/-- C8: an unseen event's dedup key is recorded by a cache update that
does not depend on the tenant configurations (so an event matching no
tenant still occupies the cache), the key is in the cache afterwards,
and a later event with the same key dispatches nothing under any
tenant configurations. -/
theorem dedup_key_recorded_independent_of_matching
    (configs configs2 : List (Nat × ServerConfig)) (cache : List String)
    (fp fp2 : FlightPlan) (hnew : dedupKey fp ∉ cache)
    (heq : dedupKey fp2 = dedupKey fp) :
    (processOne configs cache fp).1 = recordKey cache (dedupKey fp) ∧
    dedupKey fp ∈ (processOne configs cache fp).1 ∧
    (processOne configs2 (processOne configs cache fp).1 fp2).2 = [] := by
  have h1 : (processOne configs cache fp).1 = recordKey cache (dedupKey fp) := by
    simp [processOne, hnew]
  refine ⟨h1, ?_, ?_⟩
  · rw [h1]
    exact mem_recordKey_self _ _
  · have h2 : dedupKey fp2 ∈ recordKey cache (dedupKey fp) := by
      rw [heq]
      exact mem_recordKey_self _ _
    rw [h1]
    simp [processOne, h2]

/-- Witness for C8: processing SWA10 with no tenants configured still
records its key, and a tenant added afterwards does not make the
duplicate notify. -/
theorem dedup_key_recorded_independent_of_matching_witness :
    dedupKey swaFlightPlan ∉ ([] : List String) ∧
    dedupKey swaFlightPlan = dedupKey swaFlightPlan ∧
    dedupKey swaFlightPlan ∈ (processOne [] [] swaFlightPlan).1 ∧
    (processOne [(1, swaConfig)] (processOne [] [] swaFlightPlan).1 swaFlightPlan).2 = [] := by
  refine ⟨by simp, rfl, ?_, ?_⟩
  · exact (dedup_key_recorded_independent_of_matching [] [(1, swaConfig)] []
      swaFlightPlan swaFlightPlan (by simp) rfl).2.1
  · exact (dedup_key_recorded_independent_of_matching [] [(1, swaConfig)] []
      swaFlightPlan swaFlightPlan (by simp) rfl).2.2

/-! Prefix matcher lemmas. -/

theorem choosePfx_spec (cs : String) (ps : List String) (p : String)
    (h : choosePfx cs ps = some p) :
    matchesPrefixCI cs p = true ∧
    ∃ i, ∃ hi : i < ps.length, ps.get ⟨i, hi⟩ = p ∧
      ∀ q ∈ ps.take i, matchesPrefixCI cs q = false := by
  induction ps with
  | nil => cases h
  | cons a rest ih =>
      by_cases ha : matchesPrefixCI cs a = true
      · rw [choosePfx, if_pos ha, Option.some_inj] at h
        subst h
        exact ⟨ha, 0, Nat.succ_pos _, rfl, by simp⟩
      · rw [choosePfx, if_neg ha] at h
        obtain ⟨hm, i, hi, hget, htake⟩ := ih h
        refine ⟨hm, i + 1, Nat.succ_lt_succ hi, hget, ?_⟩
        intro q hq
        rw [List.take_succ_cons] at hq
        rcases List.mem_cons.mp hq with hqa | hqr
        · subst hqa
          exact Bool.not_eq_true _ ▸ ha
        · exact htake q hqr

theorem mem_matchTenants (configs : List (Nat × ServerConfig)) (cs : String)
    (gid : Nat) (cfg : ServerConfig) (p : String)
    (h : (gid, cfg, p) ∈ matchTenants configs cs) :
    (gid, cfg) ∈ configs ∧ choosePfx cs cfg.prefixes = some p := by
  simp only [matchTenants, List.mem_filterMap] at h
  obtain ⟨gc, hgc, hf⟩ := h
  cases hx : choosePfx cs gc.2.prefixes with
  | none => rw [hx] at hf; cases hf
  | some q =>
      rw [hx, Option.map_some'] at hf
      have hq : (gc.1, gc.2, q) = (gid, cfg, p) := Option.some_inj.mp hf
      have h1 : gc.1 = gid := congrArg (fun e => e.1) hq
      have h2 : gc.2 = cfg := congrArg (fun e => e.2.1) hq
      have h3 : q = p := congrArg (fun e => e.2.2) hq
      constructor
      · have : gc = (gid, cfg) := by
          cases gc
          simp only [Prod.mk.injEq]
          exact ⟨h1, h2⟩
        rwa [this] at hgc
      · rw [← h2, ← h3]
        exact hx

theorem countP_matchTenants (configs : List (Nat × ServerConfig)) (cs : String)
    (gid : Nat) :
    ((matchTenants configs cs).countP (fun e => e.1 == gid)) ≤
      configs.countP (fun c => c.1 == gid) := by
  induction configs with
  | nil => simp [matchTenants]
  | cons c rest ih =>
      rw [matchTenants, List.filterMap_cons]
      cases hx : choosePfx cs c.2.prefixes with
      | none =>
          rw [Option.map_none']
          rw [List.countP_cons]
          exact le_trans ih (Nat.le_add_right _ _)
      | some q =>
          rw [Option.map_some', List.countP_cons, List.countP_cons]
          have ihx : List.countP (fun e => e.1 == gid)
              (List.filterMap
                (fun gc => Option.map (fun p => (gc.1, gc.2, p))
                  (choosePfx cs gc.2.prefixes)) rest) ≤
              List.countP (fun c => c.1 == gid) rest := ih
          exact Nat.add_le_add ihx (Nat.le_of_eq rfl)

/-- C4: per tenant the matcher yields at most one entry, whose prefix
is the first configured prefix the callsign starts with
case-insensitively; an empty prefix list never matches; the DAL123
example picks DAL, the first qualifying prefix. -/
theorem prefix_matcher_first_qualifying :
    (∀ cs : String, choosePfx cs [] = none) ∧
    (∀ (configs : List (Nat × ServerConfig)) (cs : String) (gid : Nat)
        (cfg : ServerConfig) (p : String),
      (gid, cfg, p) ∈ matchTenants configs cs →
      (gid, cfg) ∈ configs ∧ choosePfx cs cfg.prefixes = some p) ∧
    (∀ (cs p : String) (ps : List String), choosePfx cs ps = some p →
      matchesPrefixCI cs p = true ∧
      ∃ i, ∃ hi : i < ps.length, ps.get ⟨i, hi⟩ = p ∧
        ∀ q ∈ ps.take i, matchesPrefixCI cs q = false) ∧
    (∀ (configs : List (Nat × ServerConfig)) (cs : String) (gid : Nat),
      ((matchTenants configs cs).countP (fun e => e.1 == gid)) ≤
        configs.countP (fun c => c.1 == gid)) ∧
    choosePfx "DAL123" ["DAL", "D"] = some "DAL" := by
  refine ⟨fun _ => rfl, mem_matchTenants, ?_, countP_matchTenants, by decide⟩
  intro cs p ps h
  exact choosePfx_spec cs ps p h

/-- Witness for C4: the DAL123 event against the DAL-then-D tenant
matches once with prefix DAL. -/
theorem prefix_matcher_first_qualifying_witness :
    (1, dalConfig) ∈ [(1, dalConfig)] ∧
    choosePfx "DAL123" dalConfig.prefixes = some "DAL" ∧
    matchesPrefixCI "DAL123" "DAL" = true := by
  have hm : (1, dalConfig, "DAL") ∈ matchTenants [(1, dalConfig)] "DAL123" := by
    decide
  have h2 := prefix_matcher_first_qualifying.2.1 [(1, dalConfig)] "DAL123" 1
    dalConfig "DAL" hm
  refine ⟨h2.1, h2.2, ?_⟩
  exact (prefix_matcher_first_qualifying.2.2.1 "DAL123" "DAL"
    dalConfig.prefixes h2.2).1

/-- C5: the delivery fan-out attempts every matched tenant exactly
once and in order: the outcome list has exactly one entry per matched
tenant, and the outcome at each position is a function of that tenant's
own entry and the delivery environment alone — so a missing channel,
missing permissions or a raised send error at one tenant never
suppresses, aborts or repeats any other tenant's single attempt. -/
theorem fanout_attempts_every_tenant_once (env : DeliveryEnv)
    (matching : List (Nat × ServerConfig × String)) :
    (sendFlightPlanNotification env matching).length = matching.length ∧
    ∀ i : Nat, (sendFlightPlanNotification env matching)[i]? =
      (matching[i]?).map (fun e => (e.1, attemptDelivery env e.2.1.channelId)) := by
  constructor
  · simp [sendFlightPlanNotification]
  · intro i
    simp [sendFlightPlanNotification]

/-- C1 counterexample: the event with no pilot name still renders a
Pilot entry (with the placeholder Unknown) under the all-defaults
configuration, so a missing pilot field does appear in the rendered
notification. -/
theorem pilot_entry_rendered_despite_absent_name :
    fpBare.robloxName = none ∧ cfgAllOn.showPilot = true ∧
    ("Pilot", "Unknown") ∈ renderFields cfgAllOn fpBare := by
  refine ⟨rfl, rfl, ?_⟩
  decide

/-- C1 (amended): every configuration-gated field except Pilot is
omitted when its underlying attribute is absent or empty, even when
the visibility flag is true — in particular an absent route never
yields a Route entry; the Pilot field alone is always rendered when its
flag is true, falling back to the placeholder Unknown. -/
theorem rendered_fields_omit_missing_except_pilot
    (cfg : ServerConfig) (fp : FlightPlan) :
    (truthy fp.aircraft = false → ∀ v, ("Aircraft", v) ∉ renderFields cfg fp) ∧
    (truthy fp.departing = false → ∀ v, ("Departure", v) ∉ renderFields cfg fp) ∧
    (truthy fp.arriving = false → ∀ v, ("Arrival", v) ∉ renderFields cfg fp) ∧
    (truthy fp.flightlevel = false → ∀ v, ("Flight Level", v) ∉ renderFields cfg fp) ∧
    (truthy fp.flightrules = false → ∀ v, ("Flight Rules", v) ∉ renderFields cfg fp) ∧
    (truthy fp.route = false → ∀ v, ("Route", v) ∉ renderFields cfg fp) ∧
    (fp.callsign.isEmpty = true → ∀ v, ("Callsign", v) ∉ renderFields cfg fp) ∧
    (cfg.showPilot = true →
      ("Pilot", fp.robloxName.getD "Unknown") ∈ renderFields cfg fp) := by
  refine ⟨?_, ?_, ?_, ?_, ?_, ?_, ?_, ?_⟩ <;> intro h
  case _ => intro v; simp [renderFields, h]
  case _ => intro v; simp [renderFields, h]
  case _ => intro v; simp [renderFields, h]
  case _ => intro v; simp [renderFields, h]
  case _ => intro v; simp [renderFields, h]
  case _ => intro v; simp [renderFields, h]
  case _ => intro v; simp [renderFields, h]
  case _ => simp [renderFields, h]

/-- Witness for C1 (amended) on the bare event: no Aircraft and no
Route entry, but a Pilot entry with the placeholder. -/
theorem rendered_fields_omit_missing_except_pilot_witness :
    ("Aircraft", "B738") ∉ renderFields cfgAllOn fpBare ∧
    ("Route", "KLAX KSEA") ∉ renderFields cfgAllOn fpBare ∧
    ("Pilot", "Unknown") ∈ renderFields cfgAllOn fpBare := by
  have h := rendered_fields_omit_missing_except_pilot cfgAllOn fpBare
  exact ⟨h.1 rfl _, h.2.2.2.2.2.1 rfl _, h.2.2.2.2.2.2.2 rfl⟩

/-- C9: a route equal to the exact sentinel string N/A is omitted even
though present, non-empty and enabled; every other rendered field
passes the sentinel string through unfiltered. -/
theorem route_sentinel_filtering_only (cfg : ServerConfig) (fp : FlightPlan) :
    (fp.route = some "N/A" → ∀ v, ("Route", v) ∉ renderFields cfg fp) ∧
    (cfg.showAircraft = true → fp.aircraft = some "N/A" →
      ("Aircraft", "N/A") ∈ renderFields cfg fp) ∧
    (cfg.showDeparture = true → fp.departing = some "N/A" →
      ("Departure", "N/A") ∈ renderFields cfg fp) ∧
    (cfg.showArrival = true → fp.arriving = some "N/A" →
      ("Arrival", "N/A") ∈ renderFields cfg fp) ∧
    (cfg.showFlightlevel = true → fp.flightlevel = some "N/A" →
      ("Flight Level", "FLN/A") ∈ renderFields cfg fp) ∧
    (cfg.showFlightrules = true → fp.flightrules = some "N/A" →
      ("Flight Rules", "N/A") ∈ renderFields cfg fp) ∧
    (cfg.showPilot = true → fp.robloxName = some "N/A" →
      ("Pilot", "N/A") ∈ renderFields cfg fp) ∧
    (cfg.showCallsign = true → fp.callsign = "N/A" →
      ("Callsign", "**N/A**") ∈ renderFields cfg fp) := by
  refine ⟨?_, ?_, ?_, ?_, ?_, ?_, ?_, ?_⟩
  · intro h v
    simp [renderFields, h, truthy]
  · intro h1 h2
    simp [renderFields, h1, h2, truthy]
    decide
  · intro h1 h2
    simp [renderFields, h1, h2, truthy]
    decide
  · intro h1 h2
    simp [renderFields, h1, h2, truthy]
    decide
  · intro h1 h2
    simp [renderFields, h1, h2, truthy]
    decide
  · intro h1 h2
    simp [renderFields, h1, h2, truthy]
    decide
  · intro h1 h2
    simp [renderFields, h1, h2]
  · intro h1 h2
    simp [renderFields, h1, h2]
    decide

/-- Witness for C9 on the sentinel event: the N/A route is omitted
while the N/A aircraft is rendered. -/
theorem route_sentinel_filtering_only_witness :
    ("Route", "N/A") ∉ renderFields cfgAllOn fpSentinel ∧
    ("Aircraft", "N/A") ∈ renderFields cfgAllOn fpSentinel := by
  have h := route_sentinel_filtering_only cfgAllOn fpSentinel
  exact ⟨h.1 rfl _, h.2.1 rfl rfl⟩

/-- C6: a WebSocket message produces events only when it is a dict
envelope carrying both the discriminator key t and the payload key d
with the discriminator in the fixed allow-list; an envelope missing
either key, one with a disallowed discriminator, and any non-dict
message all yield no events (hence no notifications). -/
theorem websocket_allow_list_gates_events :
    (∀ fields, hasKey fields "t" = false → eventsOfMessage (.obj fields) = []) ∧
    (∀ fields, hasKey fields "d" = false → eventsOfMessage (.obj fields) = []) ∧
    (∀ fields t, lookup fields "t" = some t → isAllowedType t = false →
      eventsOfMessage (.obj fields) = []) ∧
    (∀ m : JVal, (∀ fields, m ≠ .obj fields) → eventsOfMessage m = []) ∧
    (∀ fields t d, lookup fields "t" = some t → isAllowedType t = true →
      hasKey fields "t" = true → hasKey fields "d" = true →
      lookup fields "d" = some d →
      eventsOfMessage (.obj fields) = extractFlightPlans d) := by
  refine ⟨?_, ?_, ?_, ?_, ?_⟩
  · intro fields h
    simp [eventsOfMessage, processWebsocketMessage, h]
  · intro fields h
    simp [eventsOfMessage, processWebsocketMessage, h]
  · intro fields t hl ha
    by_cases hc : (hasKey fields "t" && hasKey fields "d") = true
    · simp [eventsOfMessage, processWebsocketMessage, hc, hl, ha]
    · simp [eventsOfMessage, processWebsocketMessage, hc]
  · intro m hm
    cases m with
    | obj fields => exact absurd rfl (hm fields)
    | null => rfl
    | bool b => rfl
    | num n => rfl
    | str s => rfl
    | arr xs => rfl
  · intro fields t d hl ha ht hd hld
    simp [eventsOfMessage, processWebsocketMessage, ht, hd, hl, ha, hld]

/-- Witness for C6: the CONTROLLERS discriminator is outside the
allow-list, so the fixture envelope yields no events. -/
theorem websocket_allow_list_gates_events_witness :
    lookup wrongTypeFields "t" = some (JVal.str "CONTROLLERS") ∧
    isAllowedType (JVal.str "CONTROLLERS") = false ∧
    eventsOfMessage (JVal.obj wrongTypeFields) = [] := by
  refine ⟨rfl, rfl, ?_⟩
  exact websocket_allow_list_gates_events.2.2.1 wrongTypeFields
    (JVal.str "CONTROLLERS") rfl rfl

/-- C10: for a dict payload without a callsign key, only the first
wrapper key present in the fixed probe order is examined; when its
value is neither a list nor a callsign-bearing dict, the whole message
yields no flight plans — also when a later wrapper key holds a valid
payload. -/
theorem wrapper_unwrap_first_key_only
    (fields : List (String × JVal)) (k : String) (v : JVal)
    (hcs : hasKey fields "callsign" = false)
    (hfk : firstWrapperKey fields = some k)
    (hlk : lookup fields k = some v)
    (harr : ∀ xs, v ≠ .arr xs)
    (hobj : isCallsignObj v = false) :
    unwrapFlightPlans (.obj fields) = [] ∧
    extractFlightPlans (.obj fields) = [] := by
  have hun : unwrapFlightPlans (.obj fields) = [] := by
    cases v with
    | arr xs => exact absurd rfl (harr xs)
    | obj inner =>
        have hin : hasKey inner "callsign" = false := hobj
        simp [unwrapFlightPlans, hcs, hfk, hlk, hin]
    | null => simp [unwrapFlightPlans, hcs, hfk, hlk]
    | bool b => simp [unwrapFlightPlans, hcs, hfk, hlk]
    | num n => simp [unwrapFlightPlans, hcs, hfk, hlk]
    | str s => simp [unwrapFlightPlans, hcs, hfk, hlk]
  refine ⟨hun, ?_⟩
  rw [extractFlightPlans, hun]
  rfl

/-- Witness for C10: the fixture whose first wrapper key holds a bad
value yields nothing although its second wrapper key holds a valid
flight plan. -/
theorem wrapper_unwrap_first_key_only_witness :
    hasKey wrappedBadFields "callsign" = false ∧
    firstWrapperKey wrappedBadFields = some "flightPlan" ∧
    lookup wrappedBadFields "flightPlan" = some (JVal.str "bad") ∧
    isCallsignObj (JVal.str "bad") = false ∧
    extractFlightPlans (JVal.obj wrappedBadFields) = [] := by
  refine ⟨rfl, rfl, rfl, rfl, ?_⟩
  refine (wrapper_unwrap_first_key_only wrappedBadFields "flightPlan"
    (JVal.str "bad") rfl rfl rfl ?_ rfl).2
  intro xs h
  cases h

/-- C7: the Snapshot Differ (modelled from the spec, the poll path is
absent from the source tree): a feed's first observation yields no new
entities regardless of the current snapshot, and otherwise the diff is
exactly current minus previous, as in the spec's two-snapshot
example. -/
theorem snapshot_diff_new_entities :
    (∀ current : List String, snapshotDiff none current = []) ∧
    (∀ (p current : List String) (x : String),
      x ∈ snapshotDiff (some p) current ↔ x ∈ current ∧ x ∉ p) ∧
    snapshotDiff (some ["A", "B"]) ["B", "C"] = ["C"] := by
  refine ⟨fun _ => rfl, ?_, by decide⟩
  intro p current x
  simp [snapshotDiff]

end FlightBot
